import Mathlib

/-!
Shallow embedding of the ContainerSSH `http` library core (TLS policy and
validation engine, outbound client pipeline, inbound server lifecycle guard,
simplified handler adapter), translated from the Go sources.  External
collaborators (the Go standard library's `crypto/tls` constants, `net/http`
response-writer semantics, JSON codecs, file reads, certificate parsing) are
modelled as explicit constants and environment parameters, matching the
repository's treatment of them as black boxes.
-/

namespace ContainerSSH

/-! ### Go `strings` helpers used by the source

`strings.HasPrefix`, `strings.TrimSpace` and `strings.Split` are collaborators
from the Go standard library, modelled here over character lists so that they
are fully computable. -/

def goHasPrefixChars : List Char → List Char → Bool
  | _, [] => true
  | [], _ :: _ => false
  | c :: s, p :: ps => c = p && goHasPrefixChars s ps

/-- Go's `strings.HasPrefix(s, pre)`. -/
def goHasPrefix (s pre : String) : Bool := goHasPrefixChars s.data pre.data

def isSpaceChar (c : Char) : Bool := c = ' ' || c = '\t' || c = '\n' || c = '\r'

/-- Go's `strings.TrimSpace`. -/
def goTrimSpace (s : String) : String :=
  String.mk (((s.data.dropWhile isSpaceChar).reverse.dropWhile isSpaceChar).reverse)

/-! ### Native `crypto/tls` constants (Go standard library values) -/

def VersionTLS12 : Nat := 0x0303
def VersionTLS13 : Nat := 0x0304

def CurveX25519 : Nat := 29
def CurveP256 : Nat := 23
def CurveP384 : Nat := 24
def CurveP521 : Nat := 25

def TLS_AES_128_GCM_SHA256 : Nat := 0x1301
def TLS_AES_256_GCM_SHA384 : Nat := 0x1302
def TLS_CHACHA20_POLY1305_SHA256 : Nat := 0x1303
def TLS_ECDHE_ECDSA_WITH_AES_128_GCM_SHA256 : Nat := 0xc02b
def TLS_ECDHE_RSA_WITH_AES_128_GCM_SHA256 : Nat := 0xc02f
def TLS_ECDHE_ECDSA_WITH_AES_256_GCM_SHA384 : Nat := 0xc02c
def TLS_ECDHE_RSA_WITH_AES_256_GCM_SHA384 : Nat := 0xc030
def TLS_ECDHE_ECDSA_WITH_CHACHA20_POLY1305 : Nat := 0xcca9
def TLS_ECDHE_RSA_WITH_CHACHA20_POLY1305 : Nat := 0xcca8

/-! ### TLSVersion -/

def TLSVersion12 : String := "1.2"
def TLSVersion13 : String := "1.3"

/-- `TLSVersion.Validate`: accepts exactly "1.2" and "1.3". -/
def TLSVersion.Validate (t : String) : Except String Unit :=
  if t = TLSVersion13 then Except.ok ()
  else if t = TLSVersion12 then Except.ok ()
  else Except.error ("unsupported TLS version: " ++ t)

/-- `TLSVersion.getTLSVersion`: translation to the native constant; `none`
models the panic on an unvalidated value.  Note the source maps the "1.3"
enumerated value to `tls.VersionTLS12`. -/
def TLSVersion.getTLSVersion (t : String) : Option Nat :=
  if t = TLSVersion13 then some VersionTLS12
  else if t = TLSVersion12 then some VersionTLS12
  else none

/-! ### ECDH curves -/

/-- `curveToID`: the fixed lookup table from curve spellings to native ids. -/
def curveToID (c : String) : Option Nat :=
  if c = "x25519" then some CurveX25519
  else if c = "X25519" then some CurveX25519
  else if c = "secp256r1" then some CurveP256
  else if c = "prime256v1" then some CurveP256
  else if c = "secp384r1" then some CurveP384
  else if c = "secp521r1" then some CurveP521
  else none

/-- `ECDHCurve.Validate`: the switch over the six accepted spellings. -/
def ECDHCurve.Validate (c : String) : Except String Unit :=
  if c = "x25519" ∨ c = "X25519" ∨ c = "secp256r1" ∨ c = "prime256v1" ∨
     c = "secp384r1" ∨ c = "secp521r1" then Except.ok ()
  else Except.error ("invalid ECDH curve: " ++ c)

/-- `ECDHCurve.getCurveID`: `none` models the panic on an unknown value. -/
def ECDHCurve.getCurveID (c : String) : Option Nat := curveToID c

/-- The source's `for` loop over the curve list: the first entry error. -/
def ECDHCurveList.firstEntryError : List String → Option String
  | [] => none
  | curve :: rest =>
    match ECDHCurve.Validate curve with
    | Except.error e => some e
    | Except.ok _ => ECDHCurveList.firstEntryError rest

/-- `ECDHCurveList.Validate`: every entry must validate, then the list must be
non-empty (entry errors are reported first, as in the source loop). -/
def ECDHCurveList.Validate (c : List String) : Except String Unit :=
  match ECDHCurveList.firstEntryError c with
  | some e => Except.error e
  | none =>
    if c.length = 0 then Except.error "no ECDH curves provided"
    else Except.ok ()

/-- `ECDHCurveList.getList`: resolve every entry; `none` models the panic on
any unresolvable entry. -/
def ECDHCurveList.getList (c : List String) : Option (List Nat) :=
  c.mapM ECDHCurve.getCurveID

/-! ### Cipher suites -/

/-- `stringToCipherSuite`: the fixed lookup table accepting IANA,
OpenSSL-style and GnuTLS-style spellings. -/
def stringToCipherSuite (c : String) : Option Nat :=
  if c = "TLS_AES_128_GCM_SHA256" then some TLS_AES_128_GCM_SHA256
  else if c = "TLS_AES_256_GCM_SHA384" then some TLS_AES_256_GCM_SHA384
  else if c = "TLS_CHACHA20_POLY1305_SHA256" then some TLS_CHACHA20_POLY1305_SHA256
  else if c = "TLS_ECDHE_ECDSA_WITH_AES_128_GCM_SHA256" then some TLS_ECDHE_ECDSA_WITH_AES_128_GCM_SHA256
  else if c = "ECDHE-ECDSA-AES128-GCM-SHA256" then some TLS_ECDHE_ECDSA_WITH_AES_128_GCM_SHA256
  else if c = "TLS_ECDHE_ECDSA_AES_128_GCM_SHA256" then some TLS_ECDHE_ECDSA_WITH_AES_128_GCM_SHA256
  else if c = "TLS_ECDHE_RSA_WITH_AES_128_GCM_SHA256" then some TLS_ECDHE_RSA_WITH_AES_128_GCM_SHA256
  else if c = "ECDHE-RSA-AES128-GCM-SHA256" then some TLS_ECDHE_RSA_WITH_AES_128_GCM_SHA256
  else if c = "TLS_ECDHE_RSA_AES_128_GCM_SHA256" then some TLS_ECDHE_RSA_WITH_AES_128_GCM_SHA256
  else if c = "TLS_ECDHE_ECDSA_WITH_AES_256_GCM_SHA384" then some TLS_ECDHE_ECDSA_WITH_AES_256_GCM_SHA384
  else if c = "ECDHE-ECDSA-AES256-GCM-SHA384" then some TLS_ECDHE_ECDSA_WITH_AES_256_GCM_SHA384
  else if c = "TLS_ECDHE_ECDSA_AES_256_GCM_SHA384" then some TLS_ECDHE_ECDSA_WITH_AES_256_GCM_SHA384
  else if c = "TLS_ECDHE_RSA_WITH_AES_256_GCM_SHA384" then some TLS_ECDHE_RSA_WITH_AES_256_GCM_SHA384
  else if c = "ECDHE-RSA-AES256-GCM-SHA384" then some TLS_ECDHE_RSA_WITH_AES_256_GCM_SHA384
  else if c = "TLS_ECDHE_RSA_AES_256_GCM_SHA384" then some TLS_ECDHE_RSA_WITH_AES_256_GCM_SHA384
  else if c = "TLS_ECDHE_ECDSA_WITH_CHACHA20_POLY1305" then some TLS_ECDHE_ECDSA_WITH_CHACHA20_POLY1305
  else if c = "ECDHE-ECDSA-CHACHA20-POLY1305" then some TLS_ECDHE_ECDSA_WITH_CHACHA20_POLY1305
  else if c = "TLS_ECDHE_ECDSA_CHACHA20_POLY1305" then some TLS_ECDHE_ECDSA_WITH_CHACHA20_POLY1305
  else if c = "TLS_ECDHE_RSA_WITH_CHACHA20_POLY1305" then some TLS_ECDHE_RSA_WITH_CHACHA20_POLY1305
  else if c = "ECDHE-RSA-CHACHA20-POLY1305" then some TLS_ECDHE_RSA_WITH_CHACHA20_POLY1305
  else if c = "TLS_ECDHE_RSA_CHACHA20_POLY1305" then some TLS_ECDHE_RSA_WITH_CHACHA20_POLY1305
  else none

/-- `CipherSuite.Validate`: supported iff present in the lookup table. -/
def CipherSuite.Validate (c : String) : Except String Unit :=
  match stringToCipherSuite c with
  | some _ => Except.ok ()
  | none => Except.error ("unsupported cipher suite: " ++ c)

/-- `CipherSuite.getCipher`: `none` models the panic on an unknown value. -/
def CipherSuite.getCipher (c : String) : Option Nat := stringToCipherSuite c

/-- The source's `for` loop over the suite list: the first entry error. -/
def CipherSuiteList.firstEntryError : List String → Option String
  | [] => none
  | suite :: rest =>
    match CipherSuite.Validate suite with
    | Except.error e => some e
    | Except.ok _ => CipherSuiteList.firstEntryError rest

/-- `CipherSuiteList.Validate`: every entry must validate, then the list must
be non-empty. -/
def CipherSuiteList.Validate (c : List String) : Except String Unit :=
  match CipherSuiteList.firstEntryError c with
  | some e => Except.error e
  | none =>
    if c.length = 0 then Except.error "no cipher suites provided"
    else Except.ok ()

/-- `CipherSuiteList.getList`: resolve every entry; `none` models the panic. -/
def CipherSuiteList.getList (c : List String) : Option (List Nat) :=
  c.mapM CipherSuite.getCipher

/-! ### List-or-string decoding (`UnmarshalJSON` / `UnmarshalYAML`)

The JSON/YAML codecs are black boxes; what reaches the custom decoder is
whether the payload decoded as a sequence of entries, as a single string, or
as neither. -/

inductive ListOrString where
  | list (entries : List String)
  | str (s : String)
  | neither
deriving DecidableEq, Repr

/-- Go's `strings.Split` on a single-character separator, on character lists. -/
def goSplitAux (sep : Char) : List Char → List Char → List (List Char)
  | [], acc => [acc.reverse]
  | c :: rest, acc =>
    if c = sep then acc.reverse :: goSplitAux sep rest []
    else goSplitAux sep rest (c :: acc)

/-- Go's `strings.Split(s, sep)` for a one-character separator. -/
def goSplit (sep : Char) (s : String) : List String :=
  (goSplitAux sep s.data []).map (fun l => String.mk l)

/-- `ECDHCurveList.UnmarshalJSON`: try a sequence, fall back to splitting a
colon-delimited string; either way the entries are appended to the
receiver. -/
def ECDHCurveList.UnmarshalJSON (c : List String) (data : ListOrString) :
    Except String (List String) :=
  match data with
  | ListOrString.list decoded => Except.ok (c ++ decoded)
  | ListOrString.str s => Except.ok (c ++ goSplit ':' s)
  | ListOrString.neither =>
    Except.error "failed to unmarshal ECDH curve list, neither a list nor a string is provided"

/-- `ECDHCurveList.UnmarshalYAML`: same algorithm as the JSON decoder. -/
def ECDHCurveList.UnmarshalYAML (c : List String) (data : ListOrString) :
    Except String (List String) :=
  match data with
  | ListOrString.list decoded => Except.ok (c ++ decoded)
  | ListOrString.str s => Except.ok (c ++ goSplit ':' s)
  | ListOrString.neither =>
    Except.error "failed to unmarshal ECDH curve list, neither a list nor a string is provided"

/-- `CipherSuiteList.UnmarshalJSON`: try a sequence, fall back to splitting a
colon-delimited string; entries are appended to the receiver. -/
def CipherSuiteList.UnmarshalJSON (c : List String) (data : ListOrString) :
    Except String (List String) :=
  match data with
  | ListOrString.list decoded => Except.ok (c ++ decoded)
  | ListOrString.str s => Except.ok (c ++ goSplit ':' s)
  | ListOrString.neither =>
    Except.error "failed to unmarshal cipher suite list, neither a list nor a string is provided"

/-- `CipherSuiteList.UnmarshalYAML`: same algorithm as the JSON decoder. -/
def CipherSuiteList.UnmarshalYAML (c : List String) (data : ListOrString) :
    Except String (List String) :=
  match data with
  | ListOrString.list decoded => Except.ok (c ++ decoded)
  | ListOrString.str s => Except.ok (c ++ goSplit ':' s)
  | ListOrString.neither =>
    Except.error "failed to unmarshal cipher suite list, neither a list nor a string is provided"

/-- Colon-joining of entries (`strings.Join(entries, ":")`), the inverse
presentation the spec's round-trip property speaks about. -/
def goJoinAux (sep : Char) : List (List Char) → List Char
  | [] => []
  | [x] => x
  | x :: y :: ys => x ++ sep :: goJoinAux sep (y :: ys)

def goJoin (sep : Char) (xs : List String) : String :=
  String.mk (goJoinAux sep (xs.map String.data))

/-! ### Request encoding -/

def RequestEncodingDefault : String := ""
def RequestEncodingJSON : String := "JSON"
def RequestEncodingWWWURLEncoded : String := "WWW-URLENCODED"

/-- `RequestEncoding.Validate`. -/
def RequestEncoding.Validate (r : String) : Except String Unit :=
  if r = RequestEncodingDefault then Except.ok ()
  else if r = RequestEncodingJSON then Except.ok ()
  else if r = RequestEncodingWWWURLEncoded then Except.ok ()
  else Except.error ("invalid request encoding: " ++ r)

/-! ### External collaborators for validation

File reads, certificate-pool construction, x509 key-pair parsing, URL and
host:port parsing are out-of-scope collaborators; they enter the embedding as
an explicit environment. -/

structure GoEnv where
  /-- `url.ParseRequestURI` succeeds. -/
  parseRequestURI : String → Bool
  /-- `ioutil.ReadFile`: the file's bytes, or a read error. -/
  readFile : String → Except String String
  /-- `x509.CertPool.AppendCertsFromPEM` succeeds on these PEM bytes. -/
  appendCertsFromPEM : String → Bool
  /-- `x509.SystemCertPool`: usable, or an error. -/
  systemCertPool : Except String Unit
  /-- `tls.X509KeyPair` on (cert PEM, key PEM): a parsed pair, or an error. -/
  x509KeyPair : String → String → Except String Unit
  /-- `net.SplitHostPort` succeeds. -/
  splitHostPort : String → Bool

/-- `loadPem` (util.go): inline PEM is distinguished by a `-----` marker at
the start after trimming whitespace; anything else is read as a file path. -/
def loadPem (env : GoEnv) (spec : String) : Except String String :=
  if ¬ (goHasPrefix (goTrimSpace spec) "-----") then env.readFile spec
  else Except.ok spec

/-! ### ClientConfiguration -/

/-- 100 * time.Millisecond in nanoseconds. -/
def minTimeout : Int := 100000000

structure ClientConfiguration where
  URL : String := ""
  AllowRedirects : Bool := false
  /-- `time.Duration`, nanoseconds. -/
  Timeout : Int := 0
  CACert : String := ""
  ClientCert : String := ""
  ClientKey : String := ""
  TLSVersion : String := ""
  ECDHCurves : List String := []
  CipherSuites : List String := []
  RequestEncoding : String := ""
  /-- internal: the loaded CA pool after Validate. -/
  caCertPool : Option Unit := none
  /-- internal: the loaded TLS key and certificate after Validate. -/
  cert : Option Unit := none
deriving Repr, DecidableEq

/-- `ClientConfiguration.validateCACert`: an explicit CA certificate builds a
dedicated pool; otherwise, over https, fall back to the system pool. -/
def ClientConfiguration.validateCACert (env : GoEnv) (c : ClientConfiguration) :
    Except String ClientConfiguration :=
  if goTrimSpace c.CACert ≠ "" then
    match loadPem env c.CACert with
    | Except.error e => Except.error ("failed to load CA certificate (" ++ e ++ ")")
    | Except.ok caCert =>
      if env.appendCertsFromPEM caCert then Except.ok { c with caCertPool := some () }
      else Except.error "invalid CA certificate provided"
  else if goHasPrefix c.URL "https://" then
    match env.systemCertPool with
    | Except.ok _ => Except.ok { c with caCertPool := some () }
    | Except.error e =>
      Except.error ("system certificate pool unusable and no explicit CA certificate was given (" ++ e ++ ")")
  else Except.ok c

/-- `ClientConfiguration.validateClientCert`: cert and key must come together;
if both are given they must parse as a matching key pair, which is cached. -/
def ClientConfiguration.validateClientCert (env : GoEnv) (c : ClientConfiguration) :
    Except String ClientConfiguration :=
  if c.ClientCert ≠ "" ∧ c.ClientKey = "" then
    Except.error "client certificate provided without client key"
  else if c.ClientCert = "" ∧ c.ClientKey ≠ "" then
    Except.error "client key provided without client certificate"
  else if c.ClientCert ≠ "" ∧ c.ClientKey ≠ "" then
    match loadPem env c.ClientCert with
    | Except.error e => Except.error ("failed to load client certificate (" ++ e ++ ")")
    | Except.ok clientCert =>
      match loadPem env c.ClientKey with
      | Except.error e => Except.error ("failed to load client certificate (" ++ e ++ ")")
      | Except.ok clientKey =>
        match env.x509KeyPair clientCert clientKey with
        | Except.error e => Except.error ("failed to load certificate or key (" ++ e ++ ")")
        | Except.ok _ => Except.ok { c with cert := some () }
  else Except.ok c

/-- `ClientConfiguration.Validate`: URL, timeout, CA pool, request encoding,
TLS fields (https only), client certificate — in source order. -/
def ClientConfiguration.Validate (env : GoEnv) (c : ClientConfiguration) :
    Except String ClientConfiguration :=
  if ¬ env.parseRequestURI c.URL then Except.error ("invalid URL: " ++ c.URL)
  else if c.Timeout < minTimeout then
    Except.error "timeout value is too low, must be at least 100ms"
  else
    match ClientConfiguration.validateCACert env c with
    | Except.error e => Except.error e
    | Except.ok c1 =>
      match RequestEncoding.Validate c1.RequestEncoding with
      | Except.error e => Except.error e
      | Except.ok _ =>
        if goHasPrefix c1.URL "https://" then
          match TLSVersion.Validate c1.TLSVersion with
          | Except.error e => Except.error ("invalid TLS version (" ++ e ++ ")")
          | Except.ok _ =>
            match ECDHCurveList.Validate c1.ECDHCurves with
            | Except.error e => Except.error ("invalid curve algorithms (" ++ e ++ ")")
            | Except.ok _ =>
              match CipherSuiteList.Validate c1.CipherSuites with
              | Except.error e => Except.error ("invalid cipher suites (" ++ e ++ ")")
              | Except.ok _ => ClientConfiguration.validateClientCert env c1
        else ClientConfiguration.validateClientCert env c1

/-! ### Client TLS policy (`createTLSConfig`) -/

structure ClientTLSConfig where
  MinVersion : Nat
  CurvePreferences : List Nat
  CipherSuites : List Nat
  RootCAs : Option Unit
  Certificates : List Unit
deriving Repr, DecidableEq

/-- Outcome of `createTLSConfig`: no TLS at all for non-https base URLs, a
policy otherwise; `panics` models the getters' panic on unvalidated values. -/
inductive TLSOutcome where
  | noTLS
  | policy (cfg : ClientTLSConfig)
  | panics
deriving Repr, DecidableEq

/-- `createTLSConfig` (client factory): only constructed for https URLs. -/
def createTLSConfig (c : ClientConfiguration) : TLSOutcome :=
  if ¬ goHasPrefix c.URL "https://" then TLSOutcome.noTLS
  else
    match TLSVersion.getTLSVersion c.TLSVersion, ECDHCurveList.getList c.ECDHCurves,
        CipherSuiteList.getList c.CipherSuites with
    | some v, some curves, some suites =>
      TLSOutcome.policy
        { MinVersion := v
          CurvePreferences := curves
          CipherSuites := suites
          RootCAs := c.caCertPool
          Certificates := match c.cert with | some _ => [()] | none => [] }
    | _, _, _ => TLSOutcome.panics

/-! ### ServerConfiguration -/

structure ServerConfiguration where
  Listen : String := ""
  Key : String := ""
  Cert : String := ""
  ClientCACert : String := ""
  TLSVersion : String := ""
  ECDHCurves : List String := []
  CipherSuites : List String := []
  /-- internal: the key and certificate after Validate. -/
  cert : Option Unit := none
  /-- internal: the client CA pool after Validate. -/
  clientCAPool : Option Unit := none
deriving Repr, DecidableEq

/-- `ServerConfiguration.Validate`: listen address, cert/key pairing (with the
TLS field checks whenever a certificate is configured), client CA pool. -/
def ServerConfiguration.Validate (env : GoEnv) (config : ServerConfiguration) :
    Except String ServerConfiguration :=
  if config.Listen = "" then Except.error "no listen address provided"
  else if ¬ env.splitHostPort config.Listen then
    Except.error "invalid listen address provided"
  else if config.Cert ≠ "" ∧ config.Key = "" then
    Except.error "certificate provided without a key"
  else if config.Cert = "" ∧ config.Key ≠ "" then
    Except.error "key provided without certificate"
  else
    let step1 : Except String ServerConfiguration :=
      if config.Cert ≠ "" ∧ config.Key ≠ "" then
        match loadPem env config.Cert with
        | Except.error e => Except.error ("failed to load certificate (" ++ e ++ ")")
        | Except.ok pemCert =>
          match loadPem env config.Key with
          | Except.error e => Except.error ("failed to load key (" ++ e ++ ")")
          | Except.ok pemKey =>
            match env.x509KeyPair pemCert pemKey with
            | Except.error e => Except.error ("failed to load key/certificate (" ++ e ++ ")")
            | Except.ok _ =>
              let config := { config with cert := some () }
              match TLSVersion.Validate config.TLSVersion with
              | Except.error e => Except.error ("invalid TLS version (" ++ e ++ ")")
              | Except.ok _ =>
                match ECDHCurveList.Validate config.ECDHCurves with
                | Except.error e => Except.error ("invalid curve algorithms (" ++ e ++ ")")
                | Except.ok _ =>
                  match CipherSuiteList.Validate config.CipherSuites with
                  | Except.error e => Except.error ("invalid cipher suites (" ++ e ++ ")")
                  | Except.ok _ => Except.ok config
      else Except.ok config
    match step1 with
    | Except.error e => Except.error e
    | Except.ok config =>
      if config.ClientCACert ≠ "" then
        match loadPem env config.ClientCACert with
        | Except.error e => Except.error ("failed to load client CA certificate (" ++ e ++ ")")
        | Except.ok clientCaCert =>
          if env.appendCertsFromPEM clientCaCert then
            Except.ok { config with clientCAPool := some () }
          else Except.error "failed to load client CA certificate"
      else Except.ok config

/-! ### Outbound client pipeline (`client.request`) -/

inductive FailureReason where
  | encodeFailed
  | connectionFailed
  | decodeFailed
deriving Repr, DecidableEq

structure ClientError where
  Reason : FailureReason
  /-- the message of the wrapped cause, when present. -/
  Cause : Option String
  Message : String
deriving Repr, DecidableEq

/-- Transport outcome of `httpClient.Do`. -/
inductive TransportResult where
  | failure (msg : String)
  | response (statusCode : Int) (body : String)
deriving Repr, DecidableEq

/-- Per-call collaborators of the pipeline: the JSON request encoder, request
construction, the transport, and the strict response decoder. -/
structure ClientEnv where
  /-- `json.NewEncoder(buffer).Encode(requestBody)`: the buffer, or an error. -/
  jsonEncodeBody : Except String String
  /-- `http.NewRequestWithContext(ctx, method, url, buffer)`. -/
  newRequest : String → String → Except String Unit
  /-- `httpClient.Do(req)`, keyed by the request URL. -/
  doRequest : String → TransportResult
  /-- strict JSON decode into the caller's destination (unknown fields
  rejected). -/
  strictDecode : String → Except String Unit

/-- The target URL: `fmt.Sprintf("%s%s", c.config.URL, path)`. -/
def requestURL (baseURL path : String) : String := baseURL ++ path

/-- `client.request`: encode → build request → transport → strict decode,
with the typed error classification of each stage. -/
def clientRequest (c : ClientConfiguration) (env : ClientEnv) (method path : String) :
    Int × Option ClientError :=
  match env.jsonEncodeBody with
  | Except.error msg =>
    (0, some { Reason := FailureReason.encodeFailed, Cause := some msg,
               Message := "failed to encode request body" })
  | Except.ok _ =>
    match env.newRequest method (requestURL c.URL path) with
    | Except.error msg =>
      (0, some { Reason := FailureReason.encodeFailed, Cause := some msg,
                 Message := "failed to encode request body" })
    | Except.ok _ =>
      match env.doRequest (requestURL c.URL path) with
      | TransportResult.failure msg =>
        (0, some { Reason := FailureReason.connectionFailed, Cause := some msg,
                   Message := "failed on HTTP request" })
      | TransportResult.response status body =>
        match env.strictDecode body with
        | Except.error msg =>
          (status, some { Reason := FailureReason.decodeFailed, Cause := some msg,
                          Message := "failed to decode response" })
        | Except.ok _ => (status, none)

/-! ### Inbound server lifecycle guard (`server.RunWithLifecycle`)

The run loop is a blocking call; its state relevant to the run/shutdown
rendezvous is the guard mutex and the native-server pointer `srv`.  The
transition below is the sequential semantics of one `RunWithLifecycle`
invocation, entered with the guard free (a blocked `Lock()` only proceeds
once the holder releases). -/

structure ServerState where
  /-- `s.lock` is currently held. -/
  lockHeld : Bool
  /-- `s.srv`: the bound native server, if any. -/
  srv : Option Unit
deriving Repr, DecidableEq

inductive ServeOutcome where
  /-- `http.ErrServerClosed`, the expected outcome of a graceful shutdown. -/
  | serverClosed
  | otherError (msg : String)
deriving Repr, DecidableEq

structure RunEnv where
  /-- `net.Listen` succeeds. -/
  listenOk : Bool
  /-- result of `srv.Serve` / `srv.ServeTLS`. -/
  serveOutcome : ServeOutcome
deriving Repr

/-- One `RunWithLifecycle` call: lock; if `srv` is already set, return the
"already running" error — the source returns here without `Unlock()`, so the
guard stays held.  Otherwise bind, serve, and run the deferred cleanup
(`srv = nil` under the lock) on every remaining exit path. -/
def RunWithLifecycle (env : RunEnv) (s : ServerState) : ServerState × Option String :=
  let s1 : ServerState := { s with lockHeld := true }
  match s1.srv with
  | some _ => (s1, some "server is already running")
  | none =>
    if ¬ env.listenOk then
      ({ lockHeld := false, srv := none }, some "listen failed")
    else
      match env.serveOutcome with
      | ServeOutcome.serverClosed => ({ lockHeld := false, srv := none }, none)
      | ServeOutcome.otherError msg => ({ lockHeld := false, srv := none }, some msg)

/-! ### Simplified handler adapter (`handler.ServeHTTP`)

`net/http.ResponseWriter` semantics: `WriteHeader` sends the status line
together with a snapshot of the header map; changing the header map after
`WriteHeader` (for a non-1xx status, non-trailer key) has no effect on what
is sent. -/

structure ResponseWriter where
  /-- the in-memory header map (`w.Header()`). -/
  headers : List (String × String)
  wroteHeader : Bool
  /-- status actually sent on the wire. -/
  sentStatus : Option Nat
  /-- headers actually sent on the wire (snapshot taken at `WriteHeader`). -/
  sentHeaders : List (String × String)
  /-- body bytes actually sent on the wire. -/
  sentBody : String
deriving Repr, DecidableEq

def ResponseWriter.empty : ResponseWriter :=
  { headers := [], wroteHeader := false, sentStatus := none, sentHeaders := [], sentBody := "" }

def ResponseWriter.writeHeader (w : ResponseWriter) (code : Nat) : ResponseWriter :=
  if w.wroteHeader then w
  else { w with wroteHeader := true, sentStatus := some code, sentHeaders := w.headers }

def ResponseWriter.headerAdd (w : ResponseWriter) (key value : String) : ResponseWriter :=
  { w with headers := w.headers ++ [(key, value)] }

def ResponseWriter.write (w : ResponseWriter) (bytes : String) : ResponseWriter :=
  let w := if ¬ w.wroteHeader then w.writeHeader 200 else w
  { w with sentBody := w.sentBody ++ bytes }

/-- Go values a handler can place in a response body; `unmarshalable` stands
for any value `json.Marshal` rejects. -/
inductive GoValue where
  | null
  | strMap (pairs : List (String × String))
  | obj (rendered : String)
  | unmarshalable
deriving Repr, DecidableEq

def renderPairs : List (String × String) → String
  | [] => ""
  | [(k, v)] => "\"" ++ k ++ "\":\"" ++ v ++ "\""
  | (k, v) :: rest => "\"" ++ k ++ "\":\"" ++ v ++ "\"," ++ renderPairs rest

/-- `json.Marshal` on the body values above. -/
def jsonMarshal : GoValue → Option String
  | GoValue.null => some "null"
  | GoValue.strMap pairs => some ("\x7b" ++ renderPairs pairs ++ "\x7d")
  | GoValue.obj rendered => some rendered
  | GoValue.unmarshalable => none

structure ServerResponse where
  statusCode : Nat
  body : GoValue
deriving Repr, DecidableEq

def internalErrorResponse : ServerResponse :=
  { statusCode := 500, body := GoValue.strMap [("error", "Internal Server Error")] }

def badRequestResponse : ServerResponse :=
  { statusCode := 400, body := GoValue.strMap [("error", "Bad Request")] }

/-- Errors a request handler can return: the `&badRequestResponse` sentinel
(matched by `errors.Is` via pointer identity), a raw `json.Unmarshal` error,
or anything else. -/
inductive GoError where
  | badRequestSentinel
  | jsonError (msg : String)
  | other (msg : String)
deriving Repr, DecidableEq

/-- `errors.Is(err, &badRequestResponse)`. -/
def errorsIsBadRequest : GoError → Bool
  | GoError.badRequestSentinel => true
  | _ => false

/-- `internalRequest.Decode`: a body read failure yields the bad-request
sentinel; a JSON unmarshal failure is returned raw. -/
def internalRequestDecode (readResult : Except String String)
    (unmarshal : String → Except String Unit) : Option GoError :=
  match readResult with
  | Except.error _ => some GoError.badRequestSentinel
  | Except.ok bytes =>
    match unmarshal bytes with
    | Except.error msg => some (GoError.jsonError msg)
    | Except.ok _ => none

/-- `handler.ServeHTTP`: status starts at 200 with an empty body; a handler
error is replaced by the generic 400 response exactly when it is the
bad-request sentinel, by the generic 500 response otherwise; a body that
fails to marshal falls back to the generic 500 response.  The status line is
written before `Content-Type` is added to the header map. -/
def handlerServeHTTP (onRequest : ServerResponse → ServerResponse × Option GoError)
    (w : ResponseWriter) : ResponseWriter :=
  let response0 : ServerResponse := { statusCode := 200, body := GoValue.null }
  let result := onRequest response0
  let response : ServerResponse :=
    match result.2 with
    | some e => if errorsIsBadRequest e then badRequestResponse else internalErrorResponse
    | none => result.1
  let marshalled : ServerResponse × Option String :=
    match jsonMarshal response.body with
    | some bytes => (response, some bytes)
    | none => (internalErrorResponse, jsonMarshal internalErrorResponse.body)
  match marshalled.2 with
  | some bytes =>
    (((w.writeHeader marshalled.1.statusCode).headerAdd "Content-Type" "application/json").write bytes)
  | none => w

/-! ### Sample environments and handlers used as concrete instances -/

/-- A handler in the README's controller shape: decode the request body and
propagate the decode error, answering 200 with a fixed body otherwise. -/
def echoDecodeHandler (readResult : Except String String)
    (unmarshal : String → Except String Unit) :
    ServerResponse → ServerResponse × Option GoError :=
  fun resp =>
    match internalRequestDecode readResult unmarshal with
    | some e => (resp, some e)
    | none => ({ resp with body := GoValue.obj "\x7b\"Message\":\"Hello world!\"\x7d" }, none)

/-- A concrete validation environment: every URL parses, no files exist on
disk, PEM appends succeed, the system pool is usable, and exactly the pair
("-----CERT", "-----KEY") parses as a matching x509 key pair. -/
def sampleEnv : GoEnv :=
  { parseRequestURI := fun _ => true
    readFile := fun _ => Except.error "open: no such file or directory"
    appendCertsFromPEM := fun _ => true
    systemCertPool := Except.ok ()
    x509KeyPair := fun c k =>
      if c = "-----CERT" ∧ k = "-----KEY" then Except.ok ()
      else Except.error "tls: private key does not match public key"
    splitHostPort := fun s => s = "127.0.0.1:8080" }

/-- A well-formed plain-http client configuration. -/
def sampleClientConfig : ClientConfiguration :=
  { URL := "http://127.0.0.1:8080/", Timeout := 2000000000 }

/-- A concrete client-call environment whose transport answers 200 with a
body the strict decoder rejects. -/
def sampleClientEnv : ClientEnv :=
  { jsonEncodeBody := Except.ok "\x7b\"Message\":\"Hi\"\x7d"
    newRequest := fun _ _ => Except.ok ()
    doRequest := fun _ => TransportResult.response 200 "\x7b\"unexpected\":true\x7d"
    strictDecode := fun _ => Except.error "json: unknown field \"unexpected\"" }

/-- The TLS selection triple of a client configuration, replaced wholesale;
used to state that validation over a non-secure URL ignores these fields. -/
def setTriple (c : ClientConfiguration) (v : String) (e s : List String) : ClientConfiguration :=
  { c with TLSVersion := v, ECDHCurves := e, CipherSuites := s }

end ContainerSSH

namespace ContainerSSH

/-! ## Theorems -/

/-- Claim C1 (code bug): "1.3" passes `Validate` but `getTLSVersion`
translates it to the native TLS 1.2 constant, not the distinct TLS 1.3
constant; only "1.2" is mapped to its own constant. -/
theorem C1_validated_tls13_resolves_to_tls12_constant :
    TLSVersion.Validate "1.3" = Except.ok () ∧
    TLSVersion.getTLSVersion "1.3" = some VersionTLS12 ∧
    TLSVersion.getTLSVersion "1.2" = some VersionTLS12 ∧
    VersionTLS12 ≠ VersionTLS13 := by
  refine ⟨rfl, rfl, rfl, by decide⟩

/-- Claim C2 (code bug): a second `RunWithLifecycle` call on a running server
(guard free, `srv` bound) fails with "server is already running" but leaves
the guard mutex held, a side effect on the server state: the lock was free
before the call and is held after it. -/
theorem C2_second_run_fails_but_leaves_guard_locked :
    RunWithLifecycle { listenOk := true, serveOutcome := ServeOutcome.serverClosed }
        { lockHeld := false, srv := some () } =
      ({ lockHeld := true, srv := some () }, some "server is already running") ∧
    ({ lockHeld := true, srv := some () } : ServerState).lockHeld ≠
      ({ lockHeld := false, srv := some () } : ServerState).lockHeld := by
  exact ⟨rfl, by decide⟩

/-- Claim C9: the JSON and YAML decoders of both list types append the
decoded entries to whatever the receiver already holds, so decoding twice
yields the concatenation of both decodes. -/
theorem C9_unmarshal_appends_to_receiver (pre xs : List String) (s : String) :
    CipherSuiteList.UnmarshalJSON pre (ListOrString.list xs) = Except.ok (pre ++ xs) ∧
    CipherSuiteList.UnmarshalJSON pre (ListOrString.str s) = Except.ok (pre ++ goSplit ':' s) ∧
    CipherSuiteList.UnmarshalYAML pre (ListOrString.list xs) = Except.ok (pre ++ xs) ∧
    CipherSuiteList.UnmarshalYAML pre (ListOrString.str s) = Except.ok (pre ++ goSplit ':' s) ∧
    ECDHCurveList.UnmarshalJSON pre (ListOrString.list xs) = Except.ok (pre ++ xs) ∧
    ECDHCurveList.UnmarshalJSON pre (ListOrString.str s) = Except.ok (pre ++ goSplit ':' s) ∧
    ECDHCurveList.UnmarshalYAML pre (ListOrString.list xs) = Except.ok (pre ++ xs) ∧
    ECDHCurveList.UnmarshalYAML pre (ListOrString.str s) = Except.ok (pre ++ goSplit ':' s) ∧
    Except.bind (CipherSuiteList.UnmarshalJSON [] (ListOrString.list pre))
        (fun l => CipherSuiteList.UnmarshalJSON l (ListOrString.list xs)) =
      Except.ok (pre ++ xs) ∧
    Except.bind (ECDHCurveList.UnmarshalJSON [] (ListOrString.list pre))
        (fun l => ECDHCurveList.UnmarshalJSON l (ListOrString.str s)) =
      Except.ok (pre ++ goSplit ':' s) :=
  ⟨rfl, rfl, rfl, rfl, rfl, rfl, rfl, rfl, rfl, rfl⟩

/-- Claim C10: the outbound target URL is the direct string concatenation of
the base URL and the path — no separator, escaping or normalization; an
empty path yields exactly the base URL, and a path without a leading slash
is glued on directly.  `clientRequest` consults the transport at exactly
this URL. -/
theorem C10_target_url_is_direct_concatenation :
    (∀ base path, requestURL base path = base ++ path) ∧
    (∀ base, requestURL base "" = base) ∧
    requestURL "http://example.com" "path" = "http://example.compath" ∧
    (∀ c env method p, clientRequest c env method p =
      clientRequest { c with URL := c.URL ++ p } env method "") := by
  refine ⟨fun base path => rfl, fun base => by simp [requestURL], rfl, ?_⟩
  intro c env method p
  have h : (c.URL ++ p) ++ "" = c.URL ++ p := by simp
  simp only [clientRequest, requestURL, h]

/-- Claim C7: when the transport round-trip succeeds but the strict JSON
decode of the response body fails, the call returns a `ClientError` with
reason `decode_failed` together with the HTTP status code of the response,
which is therefore not the zero of a connection failure. -/
theorem C7_decode_failure_returns_status_and_decode_failed
    (c : ClientConfiguration) (env : ClientEnv) (method path : String)
    (status : Int) (body msg buf : String)
    (hEnc : env.jsonEncodeBody = Except.ok buf)
    (hReq : env.newRequest method (requestURL c.URL path) = Except.ok ())
    (hDo : env.doRequest (requestURL c.URL path) = TransportResult.response status body)
    (hDec : env.strictDecode body = Except.error msg) :
    clientRequest c env method path =
      (status, some { Reason := FailureReason.decodeFailed, Cause := some msg,
                      Message := "failed to decode response" }) ∧
    (status ≠ 0 → (clientRequest c env method path).1 ≠ 0) := by
  have h : clientRequest c env method path =
      (status, some { Reason := FailureReason.decodeFailed, Cause := some msg,
                      Message := "failed to decode response" }) := by
    simp only [clientRequest, hEnc, hReq, hDo, hDec]
  exact ⟨h, fun hs => by rw [h]; exact hs⟩

/-- Witness for C7 at a concrete client, environment and response. -/
theorem C7_witness :
    clientRequest sampleClientConfig sampleClientEnv "POST" "" =
      (200, some { Reason := FailureReason.decodeFailed,
                   Cause := some "json: unknown field \"unexpected\"",
                   Message := "failed to decode response" }) ∧
    (clientRequest sampleClientConfig sampleClientEnv "POST" "").1 ≠ 0 := by
  have h := C7_decode_failure_returns_status_and_decode_failed
    sampleClientConfig sampleClientEnv "POST" ""
    200 "\x7b\"unexpected\":true\x7d" "json: unknown field \"unexpected\""
    "\x7b\"Message\":\"Hi\"\x7d" rfl rfl rfl rfl
  exact ⟨h.1, h.2 (by decide)⟩

/-- Claim C3 (code bug): for every installed handler, the adapter writes the
status line before adding `Content-Type` to the header map, so the headers
actually sent to the client never include `Content-Type: application/json` —
the pair only lands in the in-memory map after the snapshot was taken. -/
theorem C3_content_type_never_reaches_the_wire
    (onRequest : ServerResponse → ServerResponse × Option GoError) :
    (handlerServeHTTP onRequest ResponseWriter.empty).sentHeaders = [] ∧
    ("Content-Type", "application/json") ∈
      (handlerServeHTTP onRequest ResponseWriter.empty).headers := by
  simp only [handlerServeHTTP]
  rcases h : onRequest { statusCode := 200, body := GoValue.null } with ⟨resp, errOpt⟩
  cases errOpt with
  | some e =>
    cases he : errorsIsBadRequest e <;>
      simp [he, badRequestResponse, internalErrorResponse, jsonMarshal, renderPairs,
        ResponseWriter.empty, ResponseWriter.writeHeader, ResponseWriter.headerAdd,
        ResponseWriter.write]
  | none =>
    cases hm : jsonMarshal resp.body <;>
      simp [hm, internalErrorResponse, jsonMarshal, renderPairs, ResponseWriter.empty,
        ResponseWriter.writeHeader, ResponseWriter.headerAdd, ResponseWriter.write]

/-- Claim C4 counterexample: a request whose body reads fine but is invalid
JSON makes `Decode` return the raw unmarshal error, not the bad-request
sentinel, so the adapter answers with the generic 500, not 400. -/
theorem C4_invalid_json_body_yields_500_not_400 :
    (handlerServeHTTP (echoDecodeHandler (Except.ok "not json")
        (fun _ => Except.error "invalid character 'o' in literal null"))
        ResponseWriter.empty).sentStatus = some 500 ∧
    ¬ ((handlerServeHTTP (echoDecodeHandler (Except.ok "not json")
        (fun _ => Except.error "invalid character 'o' in literal null"))
        ResponseWriter.empty).sentStatus = some 400) := by
  exact ⟨rfl, by decide⟩

/-- Claim C4 as amended: a handler error is answered with the fixed generic
500 body unless it is the bad-request sentinel, which gets the fixed generic
400 body; `Decode` produces that sentinel only for an unreadable body, while
a JSON-undecodable body yields the raw decode error (hence the 500 path). -/
theorem C4_handler_error_mapping
    (onRequest : ServerResponse → ServerResponse × Option GoError)
    (resp : ServerResponse) (e : GoError)
    (h : onRequest { statusCode := 200, body := GoValue.null } = (resp, some e)) :
    (handlerServeHTTP onRequest ResponseWriter.empty).sentStatus =
      some (if errorsIsBadRequest e then 400 else 500) ∧
    (handlerServeHTTP onRequest ResponseWriter.empty).sentBody =
      (if errorsIsBadRequest e then "\x7b\"error\":\"Bad Request\"\x7d"
       else "\x7b\"error\":\"Internal Server Error\"\x7d") ∧
    (∀ readErr unmarshal,
      internalRequestDecode (Except.error readErr) unmarshal =
        some GoError.badRequestSentinel) ∧
    (∀ bytes msg (unmarshal : String → Except String Unit),
      unmarshal bytes = Except.error msg →
      internalRequestDecode (Except.ok bytes) unmarshal = some (GoError.jsonError msg) ∧
      errorsIsBadRequest (GoError.jsonError msg) = false) := by
  refine ⟨?_, ?_, fun readErr unmarshal => rfl, fun bytes msg unmarshal hu => ?_⟩
  · cases he : errorsIsBadRequest e <;>
      simp [handlerServeHTTP, h, he, badRequestResponse, internalErrorResponse, jsonMarshal,
        renderPairs, ResponseWriter.empty, ResponseWriter.writeHeader, ResponseWriter.headerAdd,
        ResponseWriter.write]
  · cases he : errorsIsBadRequest e <;>
      simp [handlerServeHTTP, h, he, badRequestResponse, internalErrorResponse, jsonMarshal,
        renderPairs, ResponseWriter.empty, ResponseWriter.writeHeader, ResponseWriter.headerAdd,
        ResponseWriter.write]
  · exact ⟨by simp [internalRequestDecode, hu], rfl⟩

/-- Witness for C4's amended theorem: an unreadable body gets the generic
400, and a concrete failing unmarshal is propagated raw. -/
theorem C4_witness :
    (handlerServeHTTP (echoDecodeHandler (Except.error "read failed")
        (fun _ => Except.ok ())) ResponseWriter.empty).sentStatus = some 400 ∧
    internalRequestDecode (Except.ok "x") (fun _ => Except.error "bad") =
      some (GoError.jsonError "bad") := by
  have h := C4_handler_error_mapping
      (echoDecodeHandler (Except.error "read failed") (fun _ => Except.ok ()))
      { statusCode := 200, body := GoValue.null } GoError.badRequestSentinel rfl
  refine ⟨?_, (h.2.2.2 "x" "bad" (fun _ => Except.error "bad") rfl).1⟩
  simpa using h.1

/-! ### Split/join round-trip lemmas for the colon-delimited decoding -/

theorem goSplitAux_append (sep : Char) (x : List Char) :
    ∀ (rest acc : List Char), (∀ c ∈ x, c ≠ sep) →
    goSplitAux sep (x ++ rest) acc = goSplitAux sep rest (x.reverse ++ acc) := by
  induction x with
  | nil => intro rest acc _; simp
  | cons c x ih =>
    intro rest acc h
    have hc : ¬ (c = sep) := h c (List.mem_cons_self c x)
    simp only [List.cons_append, goSplitAux, if_neg hc, List.append_eq]
    rw [ih rest (c :: acc) (fun d hd => h d (List.mem_cons_of_mem c hd))]
    congr 1
    simp

theorem goSplitAux_goJoinAux (sep : Char) :
    ∀ (xs : List (List Char)), xs ≠ [] → (∀ l ∈ xs, ∀ c ∈ l, c ≠ sep) →
    goSplitAux sep (goJoinAux sep xs) [] = xs := by
  intro xs
  induction xs with
  | nil => intro h _; exact absurd rfl h
  | cons x xs ih =>
    intro _ hall
    cases xs with
    | nil =>
      have hx : ∀ c ∈ x, c ≠ sep := hall x (by simp)
      have h1 : goSplitAux sep (x ++ []) [] = goSplitAux sep [] (x.reverse ++ []) :=
        goSplitAux_append sep x [] [] hx
      simpa [goJoinAux, goSplitAux] using h1
    | cons y ys =>
      have hx : ∀ c ∈ x, c ≠ sep := hall x (by simp)
      simp only [goJoinAux]
      rw [goSplitAux_append sep x (sep :: goJoinAux sep (y :: ys)) [] hx]
      simp only [goSplitAux, if_pos rfl]
      rw [ih (by simp) (fun l hl => hall l (List.mem_cons_of_mem x hl))]
      simp

theorem list_map_mk_data : ∀ (l : List String), l.map (fun s => String.mk s.data) = l
  | [] => rfl
  | s :: rest => by simp only [List.map_cons, list_map_mk_data rest]

theorem goSplit_goJoin (xs : List String) (h : xs ≠ [])
    (hs : ∀ s ∈ xs, ∀ c ∈ s.data, c ≠ ':') :
    goSplit ':' (goJoin ':' xs) = xs := by
  unfold goSplit goJoin
  have hmap : xs.map String.data ≠ [] := by
    cases xs with
    | nil => exact absurd rfl h
    | cons a t => simp
  have hall : ∀ l ∈ xs.map String.data, ∀ c ∈ l, c ≠ ':' := by
    intro l hl
    rcases List.mem_map.mp hl with ⟨s, hsmem, rfl⟩
    exact hs s hsmem
  rw [show (String.mk (goJoinAux ':' (xs.map String.data))).data =
        goJoinAux ':' (xs.map String.data) from rfl]
  rw [goSplitAux_goJoinAux ':' (xs.map String.data) hmap hall]
  rw [List.map_map]
  exact list_map_mk_data xs

/-- Claim C8: decoding a selection from its colon-joined string and from the
equivalent sequence of entries produces the same list, hence the same
resolved native ids in the same order; and the IANA, OpenSSL-style and
GnuTLS-style spellings of a suite (resp. the curve aliases) resolve to the
same id. -/
theorem C8_colon_string_and_sequence_decode_agree (xs : List String)
    (hne : xs ≠ []) (hcolon : ∀ s ∈ xs, ∀ c ∈ s.data, c ≠ ':') :
    CipherSuiteList.UnmarshalJSON [] (ListOrString.str (goJoin ':' xs)) =
      CipherSuiteList.UnmarshalJSON [] (ListOrString.list xs) ∧
    ECDHCurveList.UnmarshalJSON [] (ListOrString.str (goJoin ':' xs)) =
      ECDHCurveList.UnmarshalJSON [] (ListOrString.list xs) ∧
    Except.map CipherSuiteList.getList
        (CipherSuiteList.UnmarshalJSON [] (ListOrString.str (goJoin ':' xs))) =
      Except.map CipherSuiteList.getList
        (CipherSuiteList.UnmarshalJSON [] (ListOrString.list xs)) ∧
    Except.map ECDHCurveList.getList
        (ECDHCurveList.UnmarshalJSON [] (ListOrString.str (goJoin ':' xs))) =
      Except.map ECDHCurveList.getList
        (ECDHCurveList.UnmarshalJSON [] (ListOrString.list xs)) ∧
    CipherSuite.getCipher "ECDHE-ECDSA-AES128-GCM-SHA256" =
      CipherSuite.getCipher "TLS_ECDHE_ECDSA_WITH_AES_128_GCM_SHA256" ∧
    CipherSuite.getCipher "TLS_ECDHE_ECDSA_AES_128_GCM_SHA256" =
      CipherSuite.getCipher "TLS_ECDHE_ECDSA_WITH_AES_128_GCM_SHA256" ∧
    CipherSuite.getCipher "ECDHE-RSA-AES128-GCM-SHA256" =
      CipherSuite.getCipher "TLS_ECDHE_RSA_WITH_AES_128_GCM_SHA256" ∧
    CipherSuite.getCipher "TLS_ECDHE_RSA_AES_128_GCM_SHA256" =
      CipherSuite.getCipher "TLS_ECDHE_RSA_WITH_AES_128_GCM_SHA256" ∧
    CipherSuite.getCipher "ECDHE-ECDSA-AES256-GCM-SHA384" =
      CipherSuite.getCipher "TLS_ECDHE_ECDSA_WITH_AES_256_GCM_SHA384" ∧
    CipherSuite.getCipher "TLS_ECDHE_ECDSA_AES_256_GCM_SHA384" =
      CipherSuite.getCipher "TLS_ECDHE_ECDSA_WITH_AES_256_GCM_SHA384" ∧
    CipherSuite.getCipher "ECDHE-RSA-AES256-GCM-SHA384" =
      CipherSuite.getCipher "TLS_ECDHE_RSA_WITH_AES_256_GCM_SHA384" ∧
    CipherSuite.getCipher "TLS_ECDHE_RSA_AES_256_GCM_SHA384" =
      CipherSuite.getCipher "TLS_ECDHE_RSA_WITH_AES_256_GCM_SHA384" ∧
    CipherSuite.getCipher "ECDHE-ECDSA-CHACHA20-POLY1305" =
      CipherSuite.getCipher "TLS_ECDHE_ECDSA_WITH_CHACHA20_POLY1305" ∧
    CipherSuite.getCipher "TLS_ECDHE_ECDSA_CHACHA20_POLY1305" =
      CipherSuite.getCipher "TLS_ECDHE_ECDSA_WITH_CHACHA20_POLY1305" ∧
    CipherSuite.getCipher "ECDHE-RSA-CHACHA20-POLY1305" =
      CipherSuite.getCipher "TLS_ECDHE_RSA_WITH_CHACHA20_POLY1305" ∧
    CipherSuite.getCipher "TLS_ECDHE_RSA_CHACHA20_POLY1305" =
      CipherSuite.getCipher "TLS_ECDHE_RSA_WITH_CHACHA20_POLY1305" ∧
    ECDHCurve.getCurveID "X25519" = ECDHCurve.getCurveID "x25519" ∧
    ECDHCurve.getCurveID "prime256v1" = ECDHCurve.getCurveID "secp256r1" := by
  have hsj := goSplit_goJoin xs hne hcolon
  refine ⟨?_, ?_, ?_, ?_, rfl, rfl, rfl, rfl, rfl, rfl, rfl, rfl, rfl, rfl, rfl, rfl, rfl, rfl⟩ <;>
    simp [CipherSuiteList.UnmarshalJSON, ECDHCurveList.UnmarshalJSON, hsj]

/-- Witness for C8 at a concrete two-entry selection mixing an IANA name and
an OpenSSL-style name. -/
theorem C8_witness :
    (["TLS_AES_128_GCM_SHA256", "ECDHE-RSA-AES128-GCM-SHA256"] : List String) ≠ [] ∧
    CipherSuiteList.UnmarshalJSON []
        (ListOrString.str (goJoin ':' ["TLS_AES_128_GCM_SHA256", "ECDHE-RSA-AES128-GCM-SHA256"])) =
      CipherSuiteList.UnmarshalJSON []
        (ListOrString.list ["TLS_AES_128_GCM_SHA256", "ECDHE-RSA-AES128-GCM-SHA256"]) := by
  refine ⟨by decide, ?_⟩
  exact (C8_colon_string_and_sequence_decode_agree
    ["TLS_AES_128_GCM_SHA256", "ECDHE-RSA-AES128-GCM-SHA256"]
    (by decide) (by decide)).1

theorem except_isOk_map {ε α β : Type} (f : α → β) (x : Except ε α) :
    (Except.map f x).isOk = x.isOk := by cases x <;> rfl

theorem validateCACert_ok_shape (env : GoEnv) (c c1 : ClientConfiguration)
    (h : ClientConfiguration.validateCACert env c = Except.ok c1) :
    c1 = c ∨ c1 = { c with caCertPool := some () } := by
  unfold ClientConfiguration.validateCACert at h
  split at h
  · split at h
    · exact absurd h (by simp)
    · split at h
      · right; exact (Except.ok.inj h).symm
      · exact absurd h (by simp)
  · split at h
    · split at h
      · right; exact (Except.ok.inj h).symm
      · exact absurd h (by simp)
    · left; exact (Except.ok.inj h).symm

theorem validateCACert_setTriple (env : GoEnv) (c : ClientConfiguration)
    (v : String) (e s : List String) :
    ClientConfiguration.validateCACert env (setTriple c v e s) =
      Except.map (fun c1 => setTriple c1 v e s) (ClientConfiguration.validateCACert env c) := by
  unfold ClientConfiguration.validateCACert
  have h1 : (setTriple c v e s).CACert = c.CACert := rfl
  have h2 : (setTriple c v e s).URL = c.URL := rfl
  rw [h1, h2]
  split
  · split
    · rfl
    · split <;> rfl
  · split
    · split <;> rfl
    · rfl

theorem validateClientCert_setTriple (env : GoEnv) (c : ClientConfiguration)
    (v : String) (e s : List String) :
    ClientConfiguration.validateClientCert env (setTriple c v e s) =
      Except.map (fun c1 => setTriple c1 v e s)
        (ClientConfiguration.validateClientCert env c) := by
  unfold ClientConfiguration.validateClientCert
  have h1 : (setTriple c v e s).ClientCert = c.ClientCert := rfl
  have h2 : (setTriple c v e s).ClientKey = c.ClientKey := rfl
  rw [h1, h2]
  split
  · rfl
  · split
    · rfl
    · split
      · split
        · rfl
        · split
          · rfl
          · split <;> rfl
      · rfl

theorem firstEntryError_none_curves (l : List String)
    (h : ECDHCurveList.firstEntryError l = none) :
    ∀ x ∈ l, (ECDHCurve.Validate x).isOk = true := by
  induction l with
  | nil => intro x hx; cases hx
  | cons a t ih =>
    intro x hx
    unfold ECDHCurveList.firstEntryError at h
    rcases hv : ECDHCurve.Validate a with e | u
    · rw [hv] at h; cases h
    · rw [hv] at h
      rcases List.mem_cons.mp hx with rfl | hxt
      · rw [hv]; rfl
      · exact ih h x hxt

theorem curve_validate_ok_resolves (x : String)
    (h : (ECDHCurve.Validate x).isOk = true) : curveToID x ≠ none := by
  unfold ECDHCurve.Validate at h
  split at h
  · rename_i hd
    rcases hd with rfl | rfl | rfl | rfl | rfl | rfl <;> simp [curveToID]
  · cases h

theorem curvelist_validate_ok (c : List String)
    (h : (ECDHCurveList.Validate c).isOk = true) :
    c ≠ [] ∧ ∀ x ∈ c, curveToID x ≠ none := by
  unfold ECDHCurveList.Validate at h
  rcases hf : ECDHCurveList.firstEntryError c with _ | e
  · rw [hf] at h
    constructor
    · intro hnil; subst hnil; exact Bool.noConfusion h
    · intro x hx
      exact curve_validate_ok_resolves x (firstEntryError_none_curves c hf x hx)
  · rw [hf] at h; cases h

theorem firstEntryError_none_suites (l : List String)
    (h : CipherSuiteList.firstEntryError l = none) :
    ∀ x ∈ l, stringToCipherSuite x ≠ none := by
  induction l with
  | nil => intro x hx; cases hx
  | cons a t ih =>
    intro x hx
    unfold CipherSuiteList.firstEntryError at h
    unfold CipherSuite.Validate at h
    rcases hv : stringToCipherSuite a with _ | id
    · rw [hv] at h; simp at h
    · rw [hv] at h
      rcases List.mem_cons.mp hx with rfl | hxt
      · rw [hv]; simp
      · exact ih h x hxt

theorem suitelist_validate_ok (c : List String)
    (h : (CipherSuiteList.Validate c).isOk = true) :
    c ≠ [] ∧ ∀ x ∈ c, stringToCipherSuite x ≠ none := by
  unfold CipherSuiteList.Validate at h
  rcases hf : CipherSuiteList.firstEntryError c with _ | e
  · rw [hf] at h
    constructor
    · intro hnil; subst hnil; exact Bool.noConfusion h
    · exact firstEntryError_none_suites c hf
  · rw [hf] at h; cases h

theorem validate_isOk_ignores_triple (env : GoEnv) (c : ClientConfiguration)
    (v : String) (e s : List String) (h : goHasPrefix c.URL "https://" = false) :
    (ClientConfiguration.Validate env (setTriple c v e s)).isOk =
      (ClientConfiguration.Validate env c).isOk := by
  unfold ClientConfiguration.Validate
  have hu : (setTriple c v e s).URL = c.URL := rfl
  have ht : (setTriple c v e s).Timeout = c.Timeout := rfl
  rw [hu, ht, validateCACert_setTriple]
  split
  · rfl
  · split
    · rfl
    · cases hca : ClientConfiguration.validateCACert env c with
      | error e2 => rfl
      | ok c1 =>
        simp only [Except.map]
        have he : (setTriple c1 v e s).RequestEncoding = c1.RequestEncoding := rfl
        rw [he]
        split
        · rfl
        · have hu1 : (setTriple c1 v e s).URL = c1.URL := rfl
          have hurl : c1.URL = c.URL := by
            rcases validateCACert_ok_shape env c c1 hca with rfl | rfl <;> rfl
          rw [hu1, hurl, h]
          simp only [Bool.false_eq_true, if_false]
          rw [validateClientCert_setTriple, except_isOk_map]

theorem validate_errs_on_bad_tls (env : GoEnv) (c : ClientConfiguration)
    (hhttps : goHasPrefix c.URL "https://" = true)
    (hbad : (TLSVersion.Validate c.TLSVersion).isOk = false
      ∨ c.ECDHCurves = [] ∨ (∃ x ∈ c.ECDHCurves, curveToID x = none)
      ∨ c.CipherSuites = [] ∨ (∃ x ∈ c.CipherSuites, stringToCipherSuite x = none)) :
    (ClientConfiguration.Validate env c).isOk = false := by
  unfold ClientConfiguration.Validate
  split
  · rfl
  · split
    · rfl
    · cases hca : ClientConfiguration.validateCACert env c with
      | error e2 => rfl
      | ok c1 =>
        have hu : c1.URL = c.URL := by
          rcases validateCACert_ok_shape env c c1 hca with rfl | rfl <;> rfl
        have htv : c1.TLSVersion = c.TLSVersion := by
          rcases validateCACert_ok_shape env c c1 hca with rfl | rfl <;> rfl
        have hec : c1.ECDHCurves = c.ECDHCurves := by
          rcases validateCACert_ok_shape env c c1 hca with rfl | rfl <;> rfl
        have hcs : c1.CipherSuites = c.CipherSuites := by
          rcases validateCACert_ok_shape env c c1 hca with rfl | rfl <;> rfl
        split
        · rfl
        · rename_i c2 heq
          injection heq with heq2
          subst heq2
          split
          · rfl
          · rw [hu, if_pos hhttps]
            cases htl : TLSVersion.Validate c1.TLSVersion with
            | error e3 => rfl
            | ok u =>
              cases hcv : ECDHCurveList.Validate c1.ECDHCurves with
              | error e4 => rfl
              | ok u2 =>
                cases hsv : CipherSuiteList.Validate c1.CipherSuites with
                | error e5 => rfl
                | ok u3 =>
                  exfalso
                  have h1 : (TLSVersion.Validate c.TLSVersion).isOk = true := by
                    rw [← htv, htl]; rfl
                  have h2 := curvelist_validate_ok c1.ECDHCurves (by rw [hcv]; rfl)
                  have h3 := suitelist_validate_ok c1.CipherSuites (by rw [hsv]; rfl)
                  rcases hbad with hb | hb | hb | hb | hb
                  · rw [h1] at hb; cases hb
                  · exact h2.1 (hec.trans hb)
                  · rcases hb with ⟨x, hx, hres⟩
                    exact (h2.2 x (by rw [hec]; exact hx)) hres
                  · exact h3.1 (hcs.trans hb)
                  · rcases hb with ⟨x, hx, hres⟩
                    exact (h3.2 x (by rw [hcs]; exact hx)) hres

/-- Claim C5: the TLS selection fields are checked exactly over the secure
scheme — over a non-secure base URL, whether `Validate` succeeds is
independent of the three TLS fields and no TLS policy object is constructed;
over the secure scheme, `Validate` fails whenever any of the three fields is
empty or holds an entry that does not resolve to a known id. -/
theorem C5_tls_fields_checked_exactly_when_secure :
    (∀ env (c : ClientConfiguration) v e s, goHasPrefix c.URL "https://" = false →
      (ClientConfiguration.Validate env (setTriple c v e s)).isOk =
        (ClientConfiguration.Validate env c).isOk) ∧
    (∀ c : ClientConfiguration, goHasPrefix c.URL "https://" = false →
      createTLSConfig c = TLSOutcome.noTLS) ∧
    (∀ env (c : ClientConfiguration), goHasPrefix c.URL "https://" = true →
      ((TLSVersion.Validate c.TLSVersion).isOk = false
        ∨ c.ECDHCurves = [] ∨ (∃ x ∈ c.ECDHCurves, curveToID x = none)
        ∨ c.CipherSuites = [] ∨ (∃ x ∈ c.CipherSuites, stringToCipherSuite x = none)) →
      (ClientConfiguration.Validate env c).isOk = false) := by
  refine ⟨fun env c v e s h => validate_isOk_ignores_triple env c v e s h,
          fun c h => ?_,
          fun env c h hb => validate_errs_on_bad_tls env c h hb⟩
  unfold createTLSConfig
  simp [h]

/-- Witness for C5 at a concrete plain-http configuration with garbage TLS
fields, and a concrete https configuration with an empty TLS version. -/
theorem C5_witness :
    (ClientConfiguration.Validate sampleEnv
        (setTriple sampleClientConfig "bogus" ["no-such-curve"] [])).isOk =
      (ClientConfiguration.Validate sampleEnv sampleClientConfig).isOk ∧
    (ClientConfiguration.Validate sampleEnv sampleClientConfig).isOk = true ∧
    createTLSConfig sampleClientConfig = TLSOutcome.noTLS ∧
    (ClientConfiguration.Validate sampleEnv
        { sampleClientConfig with URL := "https://127.0.0.1:8080/" }).isOk = false := by
  refine ⟨C5_tls_fields_checked_exactly_when_secure.1 sampleEnv sampleClientConfig
      "bogus" ["no-such-curve"] [] (by decide),
    by decide,
    C5_tls_fields_checked_exactly_when_secure.2.1 sampleClientConfig (by decide),
    C5_tls_fields_checked_exactly_when_secure.2.2 sampleEnv
      { sampleClientConfig with URL := "https://127.0.0.1:8080/" } (by decide)
      (Or.inl (by decide))⟩

theorem validateClientCert_mixed (env : GoEnv) (c1 : ClientConfiguration)
    (h : (c1.ClientCert ≠ "" ∧ c1.ClientKey = "") ∨ (c1.ClientCert = "" ∧ c1.ClientKey ≠ "")) :
    (ClientConfiguration.validateClientCert env c1).isOk = false := by
  unfold ClientConfiguration.validateClientCert
  rcases h with ⟨h1, h2⟩ | ⟨h1, h2⟩
  · rw [if_pos ⟨h1, h2⟩]; rfl
  · rw [if_neg (fun hh => hh.1 h1), if_pos ⟨h1, h2⟩]; rfl

theorem validateClientCert_mismatch (env : GoEnv) (c1 : ClientConfiguration) (pc pk : String)
    (hc : c1.ClientCert ≠ "") (hk : c1.ClientKey ≠ "")
    (hpc : loadPem env c1.ClientCert = Except.ok pc)
    (hpk : loadPem env c1.ClientKey = Except.ok pk)
    (hkp : ∃ msg, env.x509KeyPair pc pk = Except.error msg) :
    (ClientConfiguration.validateClientCert env c1).isOk = false := by
  obtain ⟨msg, hm⟩ := hkp
  unfold ClientConfiguration.validateClientCert
  rw [if_neg (fun hh => hk hh.2), if_neg (fun hh => hc hh.1), if_pos ⟨hc, hk⟩]
  simp only [hpc, hpk, hm]
  rfl

theorem validateClientCert_success (env : GoEnv) (c1 : ClientConfiguration) (pc pk : String)
    (hc : c1.ClientCert ≠ "") (hk : c1.ClientKey ≠ "")
    (hpc : loadPem env c1.ClientCert = Except.ok pc)
    (hpk : loadPem env c1.ClientKey = Except.ok pk)
    (hkp : env.x509KeyPair pc pk = Except.ok ()) :
    ClientConfiguration.validateClientCert env c1 = Except.ok { c1 with cert := some () } := by
  unfold ClientConfiguration.validateClientCert
  rw [if_neg (fun hh => hk hh.2), if_neg (fun hh => hc hh.1), if_pos ⟨hc, hk⟩]
  simp only [hpc, hpk, hkp]

theorem validate_ok_through_clientCert (env : GoEnv) (c c' : ClientConfiguration)
    (h : ClientConfiguration.Validate env c = Except.ok c') :
    ∃ c1, ClientConfiguration.validateCACert env c = Except.ok c1 ∧
      ClientConfiguration.validateClientCert env c1 = Except.ok c' := by
  unfold ClientConfiguration.Validate at h
  split at h
  · cases h
  · split at h
    · cases h
    · cases hca : ClientConfiguration.validateCACert env c with
      | error e => rw [hca] at h; cases h
      | ok c1 =>
        rw [hca] at h
        split at h
        · cases h
        · rename_i c2 heq
          injection heq with heq2
          subst heq2
          refine ⟨_, rfl, ?_⟩
          split at h
          · cases h
          · split at h
            · split at h
              · cases h
              · split at h
                · cases h
                · split at h
                  · cases h
                  · exact h
            · exact h

theorem client_oneSided_cert_fails (env : GoEnv) (c : ClientConfiguration)
    (h : (c.ClientCert ≠ "" ∧ c.ClientKey = "") ∨ (c.ClientCert = "" ∧ c.ClientKey ≠ "")) :
    (ClientConfiguration.Validate env c).isOk = false := by
  cases hv : ClientConfiguration.Validate env c with
  | error e => rfl
  | ok c' =>
    exfalso
    obtain ⟨c1, hca, hcc⟩ := validate_ok_through_clientCert env c c' hv
    have h1 : c1.ClientCert = c.ClientCert := by
      rcases validateCACert_ok_shape env c c1 hca with rfl | rfl <;> rfl
    have h2 : c1.ClientKey = c.ClientKey := by
      rcases validateCACert_ok_shape env c c1 hca with rfl | rfl <;> rfl
    have hbad := validateClientCert_mixed env c1 (by rw [h1, h2]; exact h)
    rw [hcc] at hbad
    cases hbad

theorem client_mismatched_pair_fails (env : GoEnv) (c : ClientConfiguration) (pc pk : String)
    (hc : c.ClientCert ≠ "") (hk : c.ClientKey ≠ "")
    (hpc : loadPem env c.ClientCert = Except.ok pc)
    (hpk : loadPem env c.ClientKey = Except.ok pk)
    (hkp : ∃ msg, env.x509KeyPair pc pk = Except.error msg) :
    (ClientConfiguration.Validate env c).isOk = false := by
  cases hv : ClientConfiguration.Validate env c with
  | error e => rfl
  | ok c' =>
    exfalso
    obtain ⟨c1, hca, hcc⟩ := validate_ok_through_clientCert env c c' hv
    have h1 : c1.ClientCert = c.ClientCert := by
      rcases validateCACert_ok_shape env c c1 hca with rfl | rfl <;> rfl
    have h2 : c1.ClientKey = c.ClientKey := by
      rcases validateCACert_ok_shape env c c1 hca with rfl | rfl <;> rfl
    have hbad := validateClientCert_mismatch env c1 pc pk (h1 ▸ hc) (h2 ▸ hk)
      (h1 ▸ hpc) (h2 ▸ hpk) hkp
    rw [hcc] at hbad
    cases hbad

theorem client_validate_success (env : GoEnv) (c c1 : ClientConfiguration) (pc pk : String)
    (hparse : env.parseRequestURI c.URL = true)
    (htime : ¬ c.Timeout < minTimeout)
    (hca : ClientConfiguration.validateCACert env c = Except.ok c1)
    (henc : RequestEncoding.Validate c.RequestEncoding = Except.ok ())
    (htls : goHasPrefix c.URL "https://" = true →
      TLSVersion.Validate c.TLSVersion = Except.ok () ∧
      ECDHCurveList.Validate c.ECDHCurves = Except.ok () ∧
      CipherSuiteList.Validate c.CipherSuites = Except.ok ())
    (hc : c.ClientCert ≠ "") (hk : c.ClientKey ≠ "")
    (hpc : loadPem env c.ClientCert = Except.ok pc)
    (hpk : loadPem env c.ClientKey = Except.ok pk)
    (hkp : env.x509KeyPair pc pk = Except.ok ()) :
    ClientConfiguration.Validate env c = Except.ok { c1 with cert := some () } ∧
    ({ c1 with cert := some () } : ClientConfiguration).cert = some () := by
  refine ⟨?_, rfl⟩
  have hurl : c1.URL = c.URL := by
    rcases validateCACert_ok_shape env c c1 hca with rfl | rfl <;> rfl
  have htv : c1.TLSVersion = c.TLSVersion := by
    rcases validateCACert_ok_shape env c c1 hca with rfl | rfl <;> rfl
  have hec : c1.ECDHCurves = c.ECDHCurves := by
    rcases validateCACert_ok_shape env c c1 hca with rfl | rfl <;> rfl
  have hcs : c1.CipherSuites = c.CipherSuites := by
    rcases validateCACert_ok_shape env c c1 hca with rfl | rfl <;> rfl
  have hre : c1.RequestEncoding = c.RequestEncoding := by
    rcases validateCACert_ok_shape env c c1 hca with rfl | rfl <;> rfl
  have hcc : c1.ClientCert = c.ClientCert := by
    rcases validateCACert_ok_shape env c c1 hca with rfl | rfl <;> rfl
  have hck : c1.ClientKey = c.ClientKey := by
    rcases validateCACert_ok_shape env c c1 hca with rfl | rfl <;> rfl
  have henc1 : RequestEncoding.Validate c1.RequestEncoding = Except.ok () := by
    rw [hre]; exact henc
  have hc1 : c1.ClientCert ≠ "" := by rw [hcc]; exact hc
  have hk1 : c1.ClientKey ≠ "" := by rw [hck]; exact hk
  have hpc1 : loadPem env c1.ClientCert = Except.ok pc := by rw [hcc]; exact hpc
  have hpk1 : loadPem env c1.ClientKey = Except.ok pk := by rw [hck]; exact hpk
  unfold ClientConfiguration.Validate
  rw [if_neg (not_not_intro hparse), if_neg htime]
  simp only [hca, henc1]
  by_cases hs : goHasPrefix c1.URL "https://" = true
  · rw [if_pos hs]
    obtain ⟨h1, h2, h3⟩ := htls (hurl ▸ hs)
    have h1a : TLSVersion.Validate c1.TLSVersion = Except.ok () := by rw [htv]; exact h1
    have h2a : ECDHCurveList.Validate c1.ECDHCurves = Except.ok () := by rw [hec]; exact h2
    have h3a : CipherSuiteList.Validate c1.CipherSuites = Except.ok () := by rw [hcs]; exact h3
    simp only [h1a, h2a, h3a]
    exact validateClientCert_success env c1 pc pk hc1 hk1 hpc1 hpk1 hkp
  · rw [if_neg hs]
    exact validateClientCert_success env c1 pc pk hc1 hk1 hpc1 hpk1 hkp

theorem server_oneSided_cert_fails (env : GoEnv) (c : ServerConfiguration)
    (h : (c.Cert ≠ "" ∧ c.Key = "") ∨ (c.Cert = "" ∧ c.Key ≠ "")) :
    (ServerConfiguration.Validate env c).isOk = false := by
  unfold ServerConfiguration.Validate
  split
  · rfl
  · split
    · rfl
    · rcases h with ⟨h1, h2⟩ | ⟨h1, h2⟩
      · rw [if_pos ⟨h1, h2⟩]; rfl
      · rw [if_neg (fun hh => hh.1 h1), if_pos ⟨h1, h2⟩]; rfl

theorem server_mismatched_pair_fails (env : GoEnv) (c : ServerConfiguration) (pc pk : String)
    (hc : c.Cert ≠ "") (hk : c.Key ≠ "")
    (hpc : loadPem env c.Cert = Except.ok pc)
    (hpk : loadPem env c.Key = Except.ok pk)
    (hkp : ∃ msg, env.x509KeyPair pc pk = Except.error msg) :
    (ServerConfiguration.Validate env c).isOk = false := by
  obtain ⟨msg, hm⟩ := hkp
  unfold ServerConfiguration.Validate
  split
  · rfl
  · split
    · rfl
    · rw [if_neg (fun hh => hk hh.2), if_neg (fun hh => hc hh.1), if_pos ⟨hc, hk⟩]
      simp only [hpc, hpk, hm]
      rfl

theorem server_validate_success (env : GoEnv) (c : ServerConfiguration) (pc pk : String)
    (hl : ¬ c.Listen = "") (hsp : env.splitHostPort c.Listen = true)
    (hc : c.Cert ≠ "") (hk : c.Key ≠ "")
    (hpc : loadPem env c.Cert = Except.ok pc)
    (hpk : loadPem env c.Key = Except.ok pk)
    (hkp : env.x509KeyPair pc pk = Except.ok ())
    (htl : TLSVersion.Validate c.TLSVersion = Except.ok ())
    (hcv : ECDHCurveList.Validate c.ECDHCurves = Except.ok ())
    (hsv : CipherSuiteList.Validate c.CipherSuites = Except.ok ())
    (hcca : c.ClientCACert = "" ∨
      ∃ pem, loadPem env c.ClientCACert = Except.ok pem ∧ env.appendCertsFromPEM pem = true) :
    ∃ out, ServerConfiguration.Validate env c = Except.ok out ∧ out.cert = some () := by
  unfold ServerConfiguration.Validate
  rw [if_neg hl, if_neg (not_not_intro hsp), if_neg (fun hh => hk hh.2),
    if_neg (fun hh => hc hh.1), if_pos ⟨hc, hk⟩]
  simp only [hpc, hpk, hkp, htl, hcv, hsv]
  by_cases hne : c.ClientCACert = ""
  · rw [if_neg (fun hh => hh hne)]
    exact ⟨_, rfl, rfl⟩
  · rcases hcca with h0 | ⟨pem, hpem, happ⟩
    · exact absurd h0 hne
    · rw [if_pos hne]
      simp only [hpem, happ, if_true]
      exact ⟨_, rfl, rfl⟩

/-- Claim C6: for both configurations, providing exactly one of certificate
and key fails validation; providing both that do not parse as a matching
x509 key pair fails; providing both that match succeeds (other fields valid)
and populates exactly one derived certificate object. -/
theorem C6_cert_key_pairing :
    (∀ env (c : ClientConfiguration),
      ((c.ClientCert ≠ "" ∧ c.ClientKey = "") ∨ (c.ClientCert = "" ∧ c.ClientKey ≠ "")) →
      (ClientConfiguration.Validate env c).isOk = false) ∧
    (∀ env (c : ServerConfiguration),
      ((c.Cert ≠ "" ∧ c.Key = "") ∨ (c.Cert = "" ∧ c.Key ≠ "")) →
      (ServerConfiguration.Validate env c).isOk = false) ∧
    (∀ env (c : ClientConfiguration) pc pk, c.ClientCert ≠ "" → c.ClientKey ≠ "" →
      loadPem env c.ClientCert = Except.ok pc → loadPem env c.ClientKey = Except.ok pk →
      (∃ msg, env.x509KeyPair pc pk = Except.error msg) →
      (ClientConfiguration.Validate env c).isOk = false) ∧
    (∀ env (c : ServerConfiguration) pc pk, c.Cert ≠ "" → c.Key ≠ "" →
      loadPem env c.Cert = Except.ok pc → loadPem env c.Key = Except.ok pk →
      (∃ msg, env.x509KeyPair pc pk = Except.error msg) →
      (ServerConfiguration.Validate env c).isOk = false) ∧
    (∀ env (c c1 : ClientConfiguration) pc pk,
      env.parseRequestURI c.URL = true → ¬ c.Timeout < minTimeout →
      ClientConfiguration.validateCACert env c = Except.ok c1 →
      RequestEncoding.Validate c.RequestEncoding = Except.ok () →
      (goHasPrefix c.URL "https://" = true →
        TLSVersion.Validate c.TLSVersion = Except.ok () ∧
        ECDHCurveList.Validate c.ECDHCurves = Except.ok () ∧
        CipherSuiteList.Validate c.CipherSuites = Except.ok ()) →
      c.ClientCert ≠ "" → c.ClientKey ≠ "" →
      loadPem env c.ClientCert = Except.ok pc → loadPem env c.ClientKey = Except.ok pk →
      env.x509KeyPair pc pk = Except.ok () →
      ClientConfiguration.Validate env c = Except.ok { c1 with cert := some () } ∧
      ({ c1 with cert := some () } : ClientConfiguration).cert = some ()) ∧
    (∀ env (c : ServerConfiguration) pc pk,
      ¬ c.Listen = "" → env.splitHostPort c.Listen = true →
      c.Cert ≠ "" → c.Key ≠ "" →
      loadPem env c.Cert = Except.ok pc → loadPem env c.Key = Except.ok pk →
      env.x509KeyPair pc pk = Except.ok () →
      TLSVersion.Validate c.TLSVersion = Except.ok () →
      ECDHCurveList.Validate c.ECDHCurves = Except.ok () →
      CipherSuiteList.Validate c.CipherSuites = Except.ok () →
      (c.ClientCACert = "" ∨
        ∃ pem, loadPem env c.ClientCACert = Except.ok pem ∧
          env.appendCertsFromPEM pem = true) →
      ∃ out, ServerConfiguration.Validate env c = Except.ok out ∧ out.cert = some ()) :=
  ⟨fun env c h => client_oneSided_cert_fails env c h,
   fun env c h => server_oneSided_cert_fails env c h,
   fun env c pc pk hc hk hpc hpk hkp =>
     client_mismatched_pair_fails env c pc pk hc hk hpc hpk hkp,
   fun env c pc pk hc hk hpc hpk hkp =>
     server_mismatched_pair_fails env c pc pk hc hk hpc hpk hkp,
   fun env c c1 pc pk hparse htime hca henc htls hc hk hpc hpk hkp =>
     client_validate_success env c c1 pc pk hparse htime hca henc htls hc hk hpc hpk hkp,
   fun env c pc pk hl hsp hc hk hpc hpk hkp htl hcv hsv hcca =>
     server_validate_success env c pc pk hl hsp hc hk hpc hpk hkp htl hcv hsv hcca⟩

/-- Witness for C6: concrete one-sided, mismatched and matching
configurations on both the client and the server side. -/
theorem C6_witness :
    (ClientConfiguration.Validate sampleEnv
      { sampleClientConfig with ClientCert := "-----CERT" }).isOk = false ∧
    (ServerConfiguration.Validate sampleEnv
      { Listen := "127.0.0.1:8080", Key := "-----KEY" }).isOk = false ∧
    (ClientConfiguration.Validate sampleEnv
      { sampleClientConfig with ClientCert := "-----CERT", ClientKey := "-----BAD" }).isOk
      = false ∧
    (ServerConfiguration.Validate sampleEnv
      { Listen := "127.0.0.1:8080", Cert := "-----CERT", Key := "-----BAD" }).isOk = false ∧
    ClientConfiguration.Validate sampleEnv
        { sampleClientConfig with ClientCert := "-----CERT", ClientKey := "-----KEY" } =
      Except.ok
        { sampleClientConfig with
            ClientCert := "-----CERT"
            ClientKey := "-----KEY"
            cert := some () } ∧
    (∃ out, ServerConfiguration.Validate sampleEnv
        { Listen := "127.0.0.1:8080", Cert := "-----CERT", Key := "-----KEY",
          TLSVersion := "1.2", ECDHCurves := ["x25519"],
          CipherSuites := ["TLS_AES_128_GCM_SHA256"] } = Except.ok out ∧
      out.cert = some ()) := by
  refine ⟨C6_cert_key_pairing.1 sampleEnv _ (Or.inl ⟨by decide, rfl⟩),
          C6_cert_key_pairing.2.1 sampleEnv _ (Or.inr ⟨rfl, by decide⟩),
          C6_cert_key_pairing.2.2.1 sampleEnv _ "-----CERT" "-----BAD"
            (by decide) (by decide) rfl rfl
            ⟨"tls: private key does not match public key", rfl⟩,
          C6_cert_key_pairing.2.2.2.1 sampleEnv _ "-----CERT" "-----BAD"
            (by decide) (by decide) rfl rfl
            ⟨"tls: private key does not match public key", rfl⟩,
          ?_,
          C6_cert_key_pairing.2.2.2.2.2 sampleEnv
            { Listen := "127.0.0.1:8080", Cert := "-----CERT", Key := "-----KEY",
              TLSVersion := "1.2", ECDHCurves := ["x25519"],
              CipherSuites := ["TLS_AES_128_GCM_SHA256"] }
            "-----CERT" "-----KEY"
            (by decide) rfl (by decide) (by decide) rfl rfl rfl rfl rfl rfl (Or.inl rfl)⟩
  exact (C6_cert_key_pairing.2.2.2.2.1 sampleEnv
    { sampleClientConfig with ClientCert := "-----CERT", ClientKey := "-----KEY" }
    { sampleClientConfig with ClientCert := "-----CERT", ClientKey := "-----KEY" }
    "-----CERT" "-----KEY"
    rfl (by decide) rfl rfl (fun h => absurd h (by decide))
    (by decide) (by decide) rfl rfl rfl).1

end ContainerSSH
